import Mathlib

/-! Verification development for the accountability-tracker backend
(src/backend/server.py). The embedding is shallow:

* a Python `date` is represented by its `toordinal()` value (an `Int`);
  `date.fromisoformat` on the documented `YYYY-MM-DD` shape is `parseYmd?`,
  comparison of dates corresponds to `Int` order, and `timedelta(days = k)`
  is addition of `k` on ordinals (Python dates are order-isomorphic to their
  ordinals);
* floats are modelled as `Rat` (only comparisons and sums occur);
* the Mongo database is a record of lists, one per collection, plus the two
  singleton documents; a handler is a function from the database and its
  parsed inputs to `Except PyError result` (reads) or
  `Except PyError result × DB` (writes, returning the store as left by the
  handler, unchanged when an exception was raised before any write);
* `now_utc().isoformat()` timestamps and `new_id()` identifiers are passed
  in as explicit `String` parameters.
-/

namespace Tracker

/-- Errors a handler can surface: an `HTTPException(status, detail)` or a
Python `NameError` for a read of an unbound name. -/
inductive PyError where
  | http (status : Nat) (detail : String)
  | nameError (name : String)
deriving DecidableEq

deriving instance DecidableEq for Except

/-! Proleptic Gregorian calendar, as used by Python `datetime.date`. -/

/-- Leap-year test of the proleptic Gregorian calendar. -/
def isLeap (y : Nat) : Bool := (y % 4 == 0 && y % 100 != 0) || y % 400 == 0

/-- Number of days in month `m` of year `y`. -/
def daysInMonth (y m : Nat) : Nat :=
  if m = 2 then (if isLeap y then 29 else 28)
  else if m = 4 ∨ m = 6 ∨ m = 9 ∨ m = 11 then 30
  else 31

/-- Days in year `y` before the first of month `m`. -/
def daysBeforeMonth (y m : Nat) : Nat :=
  (List.range (m - 1)).foldl (fun a i => a + daysInMonth y (i + 1)) 0

/-- Days before January 1 of year `y` (CPython datetime `_days_before_year`). -/
def daysBeforeYear (y : Nat) : Nat :=
  365 * (y - 1) + (y - 1) / 4 - (y - 1) / 100 + (y - 1) / 400

/-- Python `date(y, m, d).toordinal()`: day 1 is 0001-01-01. -/
def toOrdinal (y m d : Nat) : Int :=
  ((daysBeforeYear y + daysBeforeMonth y m + d : Nat) : Int)

/-- A calendar date as a year-month-day triple. -/
structure Ymd where
  year : Nat
  month : Nat
  day : Nat
deriving DecidableEq

/-- Validity of a triple as a Python `date` (year 1-9999, month 1-12, day in
range for the month). -/
def Ymd.valid (t : Ymd) : Bool :=
  1 ≤ t.year && t.year ≤ 9999 && 1 ≤ t.month && t.month ≤ 12 &&
    1 ≤ t.day && t.day ≤ daysInMonth t.year t.month

/-- Ordinal of a triple. -/
def Ymd.ord (t : Ymd) : Int := toOrdinal t.year t.month t.day

/-- Value of a decimal digit character, `none` otherwise. -/
def digit? (c : Char) : Option Nat :=
  if c.isDigit then some (c.toNat - 48) else none

/-- Python `date.fromisoformat` on the documented `YYYY-MM-DD` shape: ten
characters, dashes at positions 4 and 7, decimal digits elsewhere, and the
triple must be a valid calendar date. -/
def parseYmd? (s : String) : Option Ymd :=
  match s.toList with
  | [y1, y2, y3, y4, h1, m1, m2, h2, d1, d2] =>
    if h1 = '-' ∧ h2 = '-' then
      match digit? y1, digit? y2, digit? y3, digit? y4,
            digit? m1, digit? m2, digit? d1, digit? d2 with
      | some a, some b, some c, some d, some e, some f, some g, some h =>
        let t : Ymd := ⟨a * 1000 + b * 100 + c * 10 + d, e * 10 + f, g * 10 + h⟩
        if t.valid then some t else none
      | _, _, _, _, _, _, _, _ => none
    else none
  | _ => none

/-- The `parse_date` helper of server.py: a malformed day string raises
HTTP 400 naming the offending literal; a valid one yields the date (as its
ordinal). -/
def parse_date (s : String) : Except PyError Int :=
  match parseYmd? s with
  | some t => .ok t.ord
  | none => .error (.http 400 ("Invalid date format: " ++ s ++ ". Use YYYY-MM-DD"))

/-- The `clamp_float` helper of server.py: values strictly outside
`[min_v, max_v]` raise HTTP 400 naming the field label; in-range values are
returned unchanged. -/
def clamp_float (v min_v max_v : Rat) (label : String) : Except PyError Rat :=
  if v < min_v ∨ v > max_v then .error (.http 400 (label ++ " out of range"))
  else .ok v

/-- Membership of a day in an inclusive range, as the Mongo filters
`day gte start, day lte end` select it (ISO strings of valid dates compare
like their dates, hence like their ordinals). -/
def dayInRange (ds de d : Int) : Bool := decide (ds ≤ d) && decide (d ≤ de)

/-- Ordered insertion for `sortAsc`. -/
def insertAsc (le : α → α → Bool) (x : α) : List α → List α
  | [] => [x]
  | y :: ys => if le x y then x :: y :: ys else y :: insertAsc le x ys

/-- A stable sort by the given order, modelling the Mongo cursor
`sort(day, 1)` of the range reads. -/
def sortAsc (le : α → α → Bool) (l : List α) : List α :=
  l.foldr (insertAsc le) []

/-! Stored documents, one structure per collection of server.py. -/

/-- A check-in document (collection `checkins`, unique per day). -/
structure CheckInDoc where
  id : String
  day : Int
  wakeup_5am : Bool
  workout : Bool
  video_captured : Bool
  notes : String
  created_at : String
  updated_at : String
deriving DecidableEq

/-- A fitness metric document (collection `metrics`); `kind` is `weight`,
`body_fat`, or the legacy `waist`. -/
structure MetricDoc where
  id : String
  day : Int
  kind : String
  value : Rat
  created_at : String
deriving DecidableEq

/-- A progress-photo document (collection `photos`). -/
structure PhotoDoc where
  id : String
  day : Int
  filename : String
  url : String
  created_at : String
deriving DecidableEq

/-- A mortgage event document (collection `mortgage_events`); `kind` is
`principal_payment` or `balance_check`. -/
structure MortgageDoc where
  id : String
  day : Int
  kind : String
  amount : Rat
  note : String
  created_at : String
deriving DecidableEq

/-- A gift document (collection `gifts`). -/
structure GiftDoc where
  id : String
  day : Int
  description : String
  amount : Rat
  created_at : String
deriving DecidableEq

/-- The singleton trip document (collection `trip`, `_id = default`). -/
structure TripDoc where
  start_date : String
  end_date : String
  dates : String
  adults_only : Bool
  lodging_booked : Bool
  childcare_confirmed : Bool
  notes : String
  updated_at : String
deriving DecidableEq

/-- A trip-history document (collection `trip_history`): the full prior trip
state archived on update. -/
structure TripHistoryDoc where
  id : String
  trip_id : String
  created_at : String
  snapshot : TripDoc
deriving DecidableEq

/-- The singleton settings document (collection `settings`, `_id = default`). -/
structure SettingsDoc where
  sendgrid_api_key : String := ""
  sendgrid_sender_email : String := ""
  reminder_recipient_email : String := ""
  weekly_review_day : String := "Sun"
  weekly_review_hour_local : Int := 9
  monthly_gift_day : Int := 1
  email_enabled : Bool := false
  updated_at : String := ""
deriving DecidableEq

/-- The document store: the six collections of server.py plus the two
singleton documents (absent singletons are `none`). -/
structure DB where
  checkins : List CheckInDoc := []
  metrics : List MetricDoc := []
  photos : List PhotoDoc := []
  mortgage_events : List MortgageDoc := []
  gifts : List GiftDoc := []
  trip_history : List TripHistoryDoc := []
  trip : Option TripDoc := none
  settings : Option SettingsDoc := none
deriving DecidableEq

/-- The empty store. -/
def emptyDB : DB := {}

/-- The trip document written by startup `setOnInsert` and by reset:
all defaults, timestamped. -/
def defaultTripDoc (now : String) : TripDoc :=
  ⟨"", "", "", true, false, false, "", now⟩

/-- The startup hook `on_startup`: upsert-on-insert of the two singleton
documents (existing documents are kept). -/
def on_startup (db : DB) (now : String) : DB :=
  { db with
    settings := some (db.settings.getD { updated_at := now }),
    trip := some (db.trip.getD (defaultTripDoc now)) }

/-- The `admin_reset` handler. A confirm value other than RESET raises
HTTP 400 before any write (the source encloses the token in single quotes
inside its detail message; the quotes are elided here). Otherwise the handler runs `delete_many`
on the six listed collections, recording each deleted count, and resets the
trip singleton to defaults; the settings document is not touched. -/
def admin_reset (db : DB) (confirm : String) (now : String) :
    Except PyError (List (String × Nat)) × DB :=
  if confirm ≠ "RESET" then (.error (.http 400 "confirm must be RESET"), db)
  else
    let deleted : List (String × Nat) :=
      [("checkins", db.checkins.length), ("metrics", db.metrics.length),
       ("photos", db.photos.length), ("mortgage_events", db.mortgage_events.length),
       ("gifts", db.gifts.length), ("trip_history", db.trip_history.length)]
    (.ok deleted,
     { db with checkins := [], metrics := [], photos := [], mortgage_events := [],
               gifts := [], trip_history := [], trip := some (defaultTripDoc now) })

/-! Check-ins. -/

/-- Mongo `find_one` on the `checkins` collection keyed by day (the
collection carries a unique index on `day`). -/
def findCheckinByDay (db : DB) (d : Int) : Option CheckInDoc :=
  db.checkins.find? (fun c => c.day == d)

/-- The request body of the check-in upsert (absent notes arrive as the
empty string, as `payload.notes or` coerces them in the source). -/
structure CheckInUpsertRequest where
  day : String
  wakeup_5am : Bool
  workout : Bool
  video_captured : Bool
  notes : String := ""
deriving DecidableEq

/-- The `upsert_checkin` handler: parse the day; if a document for that day
exists, update its payload fields and `updated_at` (keeping `created_at`),
else insert a fresh document with `created_at = updated_at = ts`. The
response is the stored document. -/
def upsert_checkin (db : DB) (p : CheckInUpsertRequest) (ts fresh : String) :
    Except PyError CheckInDoc × DB :=
  match parse_date p.day with
  | .error e => (.error e, db)
  | .ok d =>
    match findCheckinByDay db d with
    | some existing =>
      let updated : CheckInDoc :=
        { existing with wakeup_5am := p.wakeup_5am, workout := p.workout,
                        video_captured := p.video_captured, notes := p.notes,
                        updated_at := ts }
      (.ok updated,
       { db with checkins :=
           db.checkins.map (fun c => if c.id == existing.id then updated else c) })
    | none =>
      let doc : CheckInDoc :=
        ⟨fresh, d, p.wakeup_5am, p.workout, p.video_captured, p.notes, ts, ts⟩
      (.ok doc, { db with checkins := db.checkins ++ [doc] })

/-- The `list_checkins` handler: parse both bounds, reject `end` before
`start`, and return the documents of the inclusive range sorted ascending
by day. -/
def list_checkins (db : DB) (startStr endStr : String) :
    Except PyError (List CheckInDoc) := do
  let ds ← parse_date startStr
  let de ← parse_date endStr
  if de < ds then throw (.http 400 "end must be >= start")
  else
    pure (sortAsc (fun a b => decide (a.day ≤ b.day))
      (db.checkins.filter (fun c => dayInRange ds de c.day)))

/-! Fitness metrics. -/

/-- The `add_weight` handler: parse the day, range-check the value in
`[80, 400]`, and append a `weight` document. -/
def add_weight (db : DB) (day : String) (weight_lbs : Rat) (ts fresh : String) :
    Except PyError MetricDoc × DB :=
  match parse_date day with
  | .error e => (.error e, db)
  | .ok d =>
    match clamp_float weight_lbs 80 400 "weight_lbs" with
    | .error e => (.error e, db)
    | .ok v =>
      let doc : MetricDoc := ⟨fresh, d, "weight", v, ts⟩
      (.ok doc, { db with metrics := db.metrics ++ [doc] })

/-- The `add_body_fat` handler: parse the day, range-check the value in
`[3, 70]`, and append a `body_fat` document. -/
def add_body_fat (db : DB) (day : String) (body_fat_pct : Rat) (ts fresh : String) :
    Except PyError MetricDoc × DB :=
  match parse_date day with
  | .error e => (.error e, db)
  | .ok d =>
    match clamp_float body_fat_pct 3 70 "body_fat_pct" with
    | .error e => (.error e, db)
    | .ok v =>
      let doc : MetricDoc := ⟨fresh, d, "body_fat", v, ts⟩
      (.ok doc, { db with metrics := db.metrics ++ [doc] })

/-- The deprecated `add_waist` handler: a pure alias that delegates to
`add_body_fat` with the waist value as the body-fat percentage. -/
def add_waist (db : DB) (day : String) (waist_in : Rat) (ts fresh : String) :
    Except PyError MetricDoc × DB :=
  add_body_fat db day waist_in ts fresh

/-- Mongo `find(query).sort(day, -1).limit(1)` over `metrics`: the document
with the greatest day among those matching (ties resolved to the earlier
list element; the source leaves tie order to the store). -/
def latestMetricByDay (l : List MetricDoc) : Option MetricDoc :=
  l.foldl (fun acc m =>
    match acc with
    | none => some m
    | some b => if m.day > b.day then some m else some b) none

/-- A metric entry as serialised in the metrics range read (after the
read-time kind migration). -/
structure MetricOut where
  id : String
  day : Int
  kind : String
  value : Rat
  created_at : String
deriving DecidableEq

/-- The response of the metrics range read. -/
structure FitnessMetricsOut where
  metrics : List MetricOut
  photos : List PhotoDoc
  latest_weight_lbs : Option Rat
  latest_body_fat_pct : Option Rat
deriving DecidableEq

/-- The `get_fitness_metrics` handler: parse both bounds, reject `end`
before `start`; list the range, migrating the legacy kind `waist` to
`body_fat` in the response; list the photos of the range; and report the
latest weight and latest body-fat (the latter matching both kinds). -/
def get_fitness_metrics (db : DB) (startStr endStr : String) :
    Except PyError FitnessMetricsOut := do
  let ds ← parse_date startStr
  let de ← parse_date endStr
  if de < ds then throw (.http 400 "end must be >= start")
  else
    let ms := sortAsc (fun a b => decide (a.day ≤ b.day))
      (db.metrics.filter (fun m => dayInRange ds de m.day))
    let metrics := ms.map (fun m =>
      { id := m.id, day := m.day,
        kind := if m.kind == "waist" then "body_fat" else m.kind,
        value := m.value, created_at := m.created_at : MetricOut })
    let photos := sortAsc (fun a b => decide (a.day ≤ b.day))
      (db.photos.filter (fun p => dayInRange ds de p.day))
    let latest_weight := latestMetricByDay (db.metrics.filter (fun m => m.kind == "weight"))
    let latest_bf := latestMetricByDay
      (db.metrics.filter (fun m => m.kind == "body_fat" || m.kind == "waist"))
    pure { metrics := metrics, photos := photos,
           latest_weight_lbs := latest_weight.map (·.value),
           latest_body_fat_pct := latest_bf.map (·.value) }

/-! Mortgage. -/

/-- Locked plan constant: the start principal. -/
def MORTGAGE_START_PRINCIPAL : Rat := 330000

/-- Locked plan constant: the target principal. -/
def MORTGAGE_TARGET_PRINCIPAL : Rat := 299999

/-- The `add_principal_payment` handler: parse the day, range-check the
amount in `[1, 1000000]`, and append a `principal_payment` document. -/
def add_principal_payment (db : DB) (day : String) (amount : Rat)
    (note ts fresh : String) : Except PyError MortgageDoc × DB :=
  match parse_date day with
  | .error e => (.error e, db)
  | .ok d =>
    match clamp_float amount 1 1000000 "amount" with
    | .error e => (.error e, db)
    | .ok amt =>
      let doc : MortgageDoc := ⟨fresh, d, "principal_payment", amt, note, ts⟩
      (.ok doc, { db with mortgage_events := db.mortgage_events ++ [doc] })

/-- The `add_balance_check` handler: parse the day, range-check the balance
in `[1, 10000000]`, and append a `balance_check` document. -/
def add_balance_check (db : DB) (day : String) (principal_balance : Rat)
    (note ts fresh : String) : Except PyError MortgageDoc × DB :=
  match parse_date day with
  | .error e => (.error e, db)
  | .ok d =>
    match clamp_float principal_balance 1 10000000 "principal_balance" with
    | .error e => (.error e, db)
    | .ok bal =>
      let doc : MortgageDoc := ⟨fresh, d, "balance_check", bal, note, ts⟩
      (.ok doc, { db with mortgage_events := db.mortgage_events ++ [doc] })

/-- The `list_mortgage_events` handler: parse both bounds and return the
documents of the inclusive range sorted ascending by day. The source
performs no ordering check on the bounds. -/
def list_mortgage_events (db : DB) (startStr endStr : String) :
    Except PyError (List MortgageDoc) := do
  let ds ← parse_date startStr
  let de ← parse_date endStr
  pure (sortAsc (fun a b => decide (a.day ≤ b.day))
    (db.mortgage_events.filter (fun m => dayInRange ds de m.day)))

/-- Mongo `find(query).sort(day, -1).limit(1)` over `mortgage_events`. -/
def latestMortgageByDay (l : List MortgageDoc) : Option MortgageDoc :=
  l.foldl (fun acc m =>
    match acc with
    | none => some m
    | some b => if m.day > b.day then some m else some b) none

/-- The rollup of the `mortgage_summary` handler (the response also repeats
the two plan constants and a progress object derived from these fields). -/
structure MortgageSummaryOut where
  latest_principal_balance : Option Rat
  principal_paid_extra_ytd : Rat
  principal_paid_extra_month : Rat
deriving DecidableEq

/-- The `mortgage_summary` handler: latest balance-check amount, and the
sums of principal-payment amounts year-to-date and month-to-date (the Mongo
aggregation sums amounts over the matching range; an empty match yields 0). -/
def mortgage_summary (db : DB) (today : Ymd) : MortgageSummaryOut :=
  let latest_bal := latestMortgageByDay
    (db.mortgage_events.filter (fun m => m.kind == "balance_check"))
  let y_start := toOrdinal today.year 1 1
  let m_start := toOrdinal today.year today.month 1
  let t := today.ord
  let ytd := ((db.mortgage_events.filter
    (fun m => m.kind == "principal_payment" && dayInRange y_start t m.day)).map
      (fun m => m.amount)).sum
  let mtd := ((db.mortgage_events.filter
    (fun m => m.kind == "principal_payment" && dayInRange m_start t m.day)).map
      (fun m => m.amount)).sum
  { latest_principal_balance := latest_bal.map (fun m => m.amount),
    principal_paid_extra_ytd := ytd, principal_paid_extra_month := mtd }

/-! Trip state. -/

/-- The `get_trip` handler: the singleton trip document, HTTP 500 when it is
missing. -/
def get_trip (db : DB) : Except PyError TripDoc :=
  match db.trip with
  | none => .error (.http 500 "Trip state missing")
  | some t => .ok t

/-- The request body of the trip update (absent optional strings arrive as
the empty string, as the source coerces them with `or`). -/
structure TripUpdate where
  start_date : String := ""
  end_date : String := ""
  dates : String := ""
  adults_only : Bool := true
  lodging_booked : Bool := false
  childcare_confirmed : Bool := false
  notes : String := ""
deriving DecidableEq

/-- The conditional date validation of `update_trip`: an absent (empty)
field is skipped, a present one must parse. -/
def parse_date_if_present (s : String) : Except PyError (Option Int) :=
  if s = "" then .ok none
  else
    match parse_date s with
    | .ok d => .ok (some d)
    | .error e => .error e

/-- The `update_trip` handler: read the prior singleton, validate the dates
(each provided date is parsed, in source order start then end, before the
two are compared; both present with end before start raises HTTP 400),
overwrite the singleton with the new state, and, when a prior document
existed, append one history entry whose snapshot is that prior document.
The response re-reads the stored trip. Every raise precedes every write. -/
def update_trip (db : DB) (p : TripUpdate) (ts fresh : String) :
    Except PyError TripDoc × DB :=
  let prev := db.trip
  match parse_date_if_present p.start_date with
  | .error e => (.error e, db)
  | .ok osd =>
    match parse_date_if_present p.end_date with
    | .error e => (.error e, db)
    | .ok oed =>
      let bad := match osd, oed with
        | some a, some b => decide (b < a)
        | _, _ => false
      if bad then (.error (.http 400 "end_date must be >= start_date"), db)
      else
        let newDoc : TripDoc :=
          ⟨p.start_date, p.end_date, p.dates, p.adults_only, p.lodging_booked,
           p.childcare_confirmed, p.notes, ts⟩
        let db1 := { db with trip := some newDoc }
        match prev with
        | some pr =>
          (.ok newDoc,
           { db1 with trip_history := db1.trip_history ++ [⟨fresh, "default", ts, pr⟩] })
        | none => (.ok newDoc, db1)

/-! Weekly review boundary arithmetic. -/

/-- Python `date.weekday()` on an ordinal: Monday is 0. Ordinal 1, the date
0001-01-01 of the proleptic Gregorian calendar, is a Monday. -/
def weekday (d : Int) : Int := (d + 6) % 7

/-- The `week_bounds` helper: Sunday-start week containing the anchor.
`days_since_sun = (weekday + 1) mod 7`; start is the anchor minus that many
days; end is start plus six days. -/
def week_bounds (anchor : Int) : Int × Int :=
  let days_since_sun := (weekday anchor + 1) % 7
  let start := anchor - days_since_sun
  (start, start + 6)

/-! Dashboard summary. -/

/-- The loop body of `calc_current_streak`: at loop index `i` the remaining
fuel is `120 - i` and the probed day is `today - i`. The loop breaks at the
first day with no check-in document or a false value for the field, counting
one per qualifying day. -/
def streakLoop (db : DB) (field : CheckInDoc → Bool) : Int → Nat → Nat
  | _, 0 => 0
  | d, fuel + 1 =>
    match findCheckinByDay db d with
    | none => 0
    | some doc => if field doc then streakLoop db field (d - 1) fuel + 1 else 0

/-- The `calc_current_streak` helper: walk backward from today for up to 120
days. The Python field-name string (its two call sites pass `wakeup_5am` and
`workout`) is rendered as the corresponding Boolean projection. -/
def calc_current_streak (db : DB) (field : CheckInDoc → Bool) (today : Int) : Nat :=
  streakLoop db field today 120

/-- A day qualifies for the streak when a check-in document exists for it
and the field is true on that document (a missing document reads as false,
as `doc.get(field, False)` does). -/
def qualifies (db : DB) (field : CheckInDoc → Bool) (d : Int) : Bool :=
  match findCheckinByDay db d with
  | none => false
  | some doc => field doc

/-- An advisory reminder record of the dashboard summary. -/
structure Reminder where
  id : String
  area : String
  message : String
  severity : String
deriving DecidableEq

/-- The dashboard summary response. The source passes a keyword
`latest_waist_in` that is not a declared field of its response model (the
declared optional field `latest_body_fat_pct` is never passed and would keep
its default); that line is unreachable, see `summary`. -/
structure SummaryResponse where
  today : Int
  current_wakeup_streak : Nat
  current_workout_streak : Nat
  week_wakeup_count : Nat
  week_workout_count : Nat
  week_video_count : Nat
  latest_weight_lbs : Option Rat
  latest_body_fat_pct : Option Rat
  mortgage_target_principal : Rat
  mortgage_start_principal : Rat
  latest_principal_balance : Option Rat
  principal_paid_extra_ytd : Rat
  principal_paid_extra_month : Rat
  trip_lodging_booked : Bool
  trip_childcare_confirmed : Bool
  gifts_this_month : Nat
  reminders : List Reminder
deriving DecidableEq

/-- The local variable names assigned anywhere in the body of the `summary`
handler (server.py lines 874-936), which together with the module globals
are the names a read inside the function can resolve; `latest_waist` is
assigned nowhere in the function and is not a module-level name of
server.py, so CPython raises `NameError` on reading it. -/
def summaryLocalNames : List String :=
  ["today", "ws", "we", "week_checkins", "week_wakeup_count",
   "week_workout_count", "week_video_count", "current_wakeup_streak",
   "current_workout_streak", "latest_weight", "latest_bf", "mortgage",
   "trip_doc", "trip_lodging_booked", "trip_childcare_confirmed",
   "month_start", "gifts_this_month", "reminders", "last_weight_doc",
   "last_weight_day", "last_waist_doc", "last_waist_day", "photo_count",
   "last_balance", "last_balance_day"]

/-- A read of the name `n` inside `summary`, yielding the value `v` the
surrounding shallow embedding supplies when the name is resolvable and
raising `NameError` otherwise. Bound names are embedded as Lean bindings
directly; only the reads of `latest_waist` (server.py lines 912 and 946),
a name outside `summaryLocalNames`, go through this function, so the value
`v` supplied at those call sites is never produced. -/
def readSummaryName (n : String) (v : α) : Except PyError α :=
  if summaryLocalNames.contains n then .ok v else .error (.nameError n)

/-- The `summary` handler, statement by statement in source order: week
counts over the current Sunday-start week, the two streaks, latest weight
and latest body-fat lookups, the mortgage rollup, trip flags, the gift
count for the calendar month, then the five independent reminder checks and
the response. Reminder check 2 (stale waist measurement, every 14 days,
lines 911-918) reads the name `latest_waist`, which no statement of the
function assigns — the adjacent lookup is assigned to `latest_bf` — so the
read raises `NameError` there on every call; the placeholder `none` handed
to `readSummaryName` is never produced (see `summary_unbound_latest_waist`),
and checks 3-5 and the response construction below it are dead code. -/
def summary (db : DB) (today : Ymd) : Except PyError SummaryResponse := do
  let t := today.ord
  let (ws, we) := week_bounds t
  let week_checkins := db.checkins.filter (fun c => dayInRange ws we c.day)
  let week_wakeup_count := (week_checkins.filter (fun c => c.wakeup_5am)).length
  let week_workout_count := (week_checkins.filter (fun c => c.workout)).length
  let week_video_count := (week_checkins.filter (fun c => c.video_captured)).length
  let current_wakeup_streak := calc_current_streak db (fun c => c.wakeup_5am) t
  let current_workout_streak := calc_current_streak db (fun c => c.workout) t
  let latest_weight := latestMetricByDay (db.metrics.filter (fun m => m.kind == "weight"))
  let latest_bf := latestMetricByDay
    (db.metrics.filter (fun m => m.kind == "body_fat" || m.kind == "waist"))
  let mortgage := mortgage_summary db today
  let trip_lodging_booked := match db.trip with
    | some tr => tr.lodging_booked
    | none => false
  let trip_childcare_confirmed := match db.trip with
    | some tr => tr.childcare_confirmed
    | none => false
  let month_start := toOrdinal today.year today.month 1
  let gifts_this_month := (db.gifts.filter (fun g => dayInRange month_start t g.day)).length
  -- Reminder check 1: weekly weigh-in (stored days are valid ISO strings,
  -- so the parse of the stored day always yields its ordinal).
  let reminders1 : List Reminder :=
    match latest_weight with
    | some doc =>
      if t - doc.day ≥ 7 then
        [⟨"weight-overdue", "Fitness", "Weight check-in overdue (aim weekly).", "warning"⟩]
      else []
    | none => [⟨"weight-missing", "Fitness", "No weight logged yet (weekly).", "info"⟩]
  -- Reminder check 2, line 912: last_waist_doc reads the unbound latest_waist.
  let last_waist_doc : Option MetricDoc ← readSummaryName "latest_waist" none
  let reminders2 : List Reminder :=
    match last_waist_doc with
    | some doc =>
      if t - doc.day ≥ 14 then
        [⟨"waist-overdue", "Fitness", "Waist measurement overdue (every 2 weeks).", "warning"⟩]
      else []
    | none =>
      [⟨"waist-missing", "Fitness", "No waist measurement logged yet (every 2 weeks).", "info"⟩]
  -- Reminder check 3: monthly progress photo.
  let photo_count := (db.photos.filter (fun ph => dayInRange month_start t ph.day)).length
  let reminders3 : List Reminder :=
    if photo_count = 0 then
      [⟨"photo-missing", "Fitness", "No progress photo logged yet this month.", "info"⟩]
    else []
  -- Reminder check 4: monthly gift.
  let reminders4 : List Reminder :=
    if gifts_this_month = 0 then
      [⟨"gift-missing", "Relationship", "No gift/gesture logged this month yet.", "info"⟩]
    else []
  -- Reminder check 5: monthly mortgage balance check.
  let last_balance := latestMortgageByDay
    (db.mortgage_events.filter (fun m => m.kind == "balance_check"))
  let reminders5 : List Reminder :=
    match last_balance with
    | some doc =>
      if t - doc.day ≥ 30 then
        [⟨"mortgage-balance-overdue", "Mortgage",
          "Mortgage principal balance check overdue (monthly).", "warning"⟩]
      else []
    | none =>
      [⟨"mortgage-balance-missing", "Mortgage",
        "Log your first mortgage principal balance check.", "info"⟩]
  -- Response construction, line 946: a second read of the unbound latest_waist.
  let _latest_waist_vals : Option Rat ← readSummaryName "latest_waist" none
  pure { today := t,
         current_wakeup_streak := current_wakeup_streak,
         current_workout_streak := current_workout_streak,
         week_wakeup_count := week_wakeup_count,
         week_workout_count := week_workout_count,
         week_video_count := week_video_count,
         latest_weight_lbs := latest_weight.map (fun m => m.value),
         latest_body_fat_pct := none,
         mortgage_target_principal := MORTGAGE_TARGET_PRINCIPAL,
         mortgage_start_principal := MORTGAGE_START_PRINCIPAL,
         latest_principal_balance := mortgage.latest_principal_balance,
         principal_paid_extra_ytd := mortgage.principal_paid_extra_ytd,
         principal_paid_extra_month := mortgage.principal_paid_extra_month,
         trip_lodging_booked := trip_lodging_booked,
         trip_childcare_confirmed := trip_childcare_confirmed,
         gifts_this_month := gifts_this_month,
         reminders := reminders1 ++ reminders2 ++ reminders3 ++ reminders4 ++ reminders5 }

/-! Concrete sample data used to evaluate the theorems below on closed
inputs (ordinal 739617 is 2026-01-01, 739623 is 2026-01-07, a Wednesday). -/

/-- A store holding check-ins on 2026-01-10 and 2026-01-09 with `wakeup_5am`
true on both, and nothing on 2026-01-08. -/
def streakDB : DB :=
  { checkins :=
      [⟨"c1", 739626, true, true, false, "", "t1", "t1"⟩,
       ⟨"c2", 739625, true, false, false, "", "t1", "t1"⟩] }

/-- A populated trip document. -/
def sampleTripDoc : TripDoc :=
  ⟨"2026-03-01", "2026-03-04", "", true, true, false, "trip notes", "t0"⟩

/-- A store with the trip singleton present and one archived history entry. -/
def dbWithHistory : DB :=
  { trip := some sampleTripDoc,
    trip_history := [⟨"h1", "default", "t0", sampleTripDoc⟩] }

/-- A trip update whose end date precedes its start date. -/
def badOrderTrip : TripUpdate :=
  { start_date := "2026-01-10", end_date := "2026-01-05" }

/-- A store holding one metric under the legacy kind `waist`
(day 739620 is 2026-01-04). -/
def waistDB : DB := { metrics := [⟨"w1", 739620, "waist", 30, "t0"⟩] }

/-! Shared lemmas. -/

/-- Membership through ordered insertion. -/
theorem mem_insertAsc (le : α → α → Bool) (x a : α) (l : List α) :
    a ∈ insertAsc le x l ↔ a = x ∨ a ∈ l := by
  induction l with
  | nil => simp [insertAsc]
  | cons y ys ih =>
    simp only [insertAsc]
    split
    · simp
    · simp only [List.mem_cons, ih]
      tauto

/-- Sorting preserves membership. -/
theorem mem_sortAsc (le : α → α → Bool) (a : α) (l : List α) :
    a ∈ sortAsc le l ↔ a ∈ l := by
  induction l with
  | nil => simp [sortAsc]
  | cons y ys ih =>
    simp only [sortAsc, List.foldr_cons] at ih ⊢
    rw [mem_insertAsc, ih, List.mem_cons]

/-- Startup leaves the trip singleton present; together with
`admin_reset` and `update_trip` preserving it (next two lemmas), every
reachable store satisfies the hypothesis of
`update_trip_appends_prior_snapshot`. -/
theorem on_startup_trip_present (db : DB) (now : String) :
    (on_startup db now).trip.isSome := by
  simp [on_startup]

/-- Reset rewrites the trip singleton to defaults, never removes it. -/
theorem admin_reset_trip_present (db : DB) (c now : String)
    (h : db.trip.isSome) : (admin_reset db c now).2.trip.isSome := by
  unfold admin_reset
  split
  · exact h
  · simp

/-- A trip update leaves the trip singleton present whenever it was. -/
theorem update_trip_trip_present (db : DB) (p : TripUpdate) (ts fid : String)
    (h : db.trip.isSome) : (update_trip db p ts fid).2.trip.isSome := by
  unfold update_trip
  cases parse_date_if_present p.start_date with
  | error e => exact h
  | ok osd =>
    cases parse_date_if_present p.end_date with
    | error e => exact h
    | ok oed =>
      simp only
      split
      · exact h
      · cases hp : db.trip <;> simp

/-- The exact value of `streakLoop`: with the first `N` probed days all
qualifying and either the fuel exhausted or day `N` back failing, the loop
returns `N`. -/
theorem streakLoop_spec (db : DB) (field : CheckInDoc → Bool) :
    ∀ (N fuel : Nat) (d : Int), N ≤ fuel →
      (∀ k : Nat, k < N → qualifies db field (d - k) = true) →
      (N < fuel → qualifies db field (d - N) = false) →
      streakLoop db field d fuel = N := by
  intro N
  induction N with
  | zero =>
    intro fuel d _ _ hstop
    cases fuel with
    | zero => rfl
    | succ f =>
      have h0 : qualifies db field d = false := by
        simpa using hstop (Nat.succ_pos f)
      unfold qualifies at h0
      unfold streakLoop
      cases hfind : findCheckinByDay db d with
      | none => simp [hfind]
      | some doc =>
        rw [hfind] at h0
        simp only [] at h0
        simp [hfind, h0]
  | succ n ih =>
    intro fuel d hle hq hstop
    cases fuel with
    | zero => omega
    | succ f =>
      have h0 : qualifies db field d = true := by
        simpa using hq 0 (Nat.succ_pos n)
      unfold qualifies at h0
      cases hfind : findCheckinByDay db d with
      | none => rw [hfind] at h0; cases h0
      | some doc =>
        rw [hfind] at h0
        simp only [] at h0
        unfold streakLoop
        have hrec : streakLoop db field (d - 1) f = n := by
          refine ih f (d - 1) (by omega) ?_ ?_
          · intro k hk
            have hk1 := hq (k + 1) (by omega)
            have e : d - ((k + 1 : Nat) : Int) = d - 1 - (k : Nat) := by
              push_cast
              ring
            rw [e] at hk1
            exact hk1
          · intro hf
            have hn1 := hstop (by omega)
            have e : d - ((n + 1 : Nat) : Int) = d - 1 - (n : Nat) := by
              push_cast
              ring
            rw [e] at hn1
            exact hn1
        simp [hfind, h0, hrec]

/-! The claims. -/

/-- C1: reminder check 2 of the dashboard summary (stale body-fat/waist,
every 14 days) reads the local name `latest_waist`, which no statement of
the handler populates (the metric-kind rename bound the adjacent lookup to
`latest_bf` instead); for every database state and every current date the
evaluation of the summary operation therefore fails at that check with a
NameError, before any summary response with its reminders list is
produced. -/
theorem summary_unbound_latest_waist (db : DB) (today : Ymd) :
    summary db today = .error (.nameError "latest_waist") := rfl

/-- C2: the current-streak computation walks backward from today for at
most 120 days and stops at the first day with no check-in record or a false
field value; if each of the last `N` consecutive days including today
qualifies (`N` at most 120) and day `N` back fails to qualify (checked only
when `N` is below the 120-day cap), the streak is exactly `N`; with `N = 0`
this is the claim that a missing or false check-in on today itself yields
streak 0. -/
theorem calc_current_streak_spec (db : DB) (field : CheckInDoc → Bool)
    (today : Int) (N : Nat) (hN : N ≤ 120)
    (hq : ∀ k : Nat, k < N → qualifies db field (today - k) = true)
    (hstop : N < 120 → qualifies db field (today - N) = false) :
    calc_current_streak db field today = N :=
  streakLoop_spec db field N 120 today hN hq hstop

/-- Witness for C2: in `streakDB`, `wakeup_5am` is true on 2026-01-10 and
2026-01-09 and day 2026-01-08 has no record, so the streak on 2026-01-10
is 2. -/
theorem calc_current_streak_spec_witness :
    (2 ≤ 120) ∧
    (∀ k : Nat, k < 2 →
      qualifies streakDB (fun c => c.wakeup_5am) (739626 - (k : Int)) = true) ∧
    ((2 : Nat) < 120 →
      qualifies streakDB (fun c => c.wakeup_5am) (739626 - ((2 : Nat) : Int)) = false) ∧
    calc_current_streak streakDB (fun c => c.wakeup_5am) 739626 = 2 :=
  ⟨by decide, by decide, by decide,
   calc_current_streak_spec streakDB (fun c => c.wakeup_5am) 739626 2
     (by decide) (by decide) (by decide)⟩

/-- C3 counterexample: for the valid pair start 2026-01-02, end 2026-01-01
(end before start), the mortgage-events range read does not reject the
request: it returns success with the empty record list, because the handler
performs no ordering check on its bounds. -/
theorem list_mortgage_events_not_rejected :
    parse_date "2026-01-02" = .ok 739618 ∧
    parse_date "2026-01-01" = .ok 739617 ∧
    (739617 : Int) < 739618 ∧
    list_mortgage_events emptyDB "2026-01-02" "2026-01-01" = .ok [] :=
  ⟨by decide, by decide, by decide, by decide⟩

/-- C3 amended: for every pair of valid ISO dates with end before start, the
check-in and fitness-metrics range reads reject the request with a client
error; the mortgage-events range read performs no ordering check and instead
returns success with no records (the inclusive range is empty). -/
theorem range_reads_end_before_start (db : DB) (s e : String) (ds de : Int)
    (hs : parse_date s = .ok ds) (he : parse_date e = .ok de) (hlt : de < ds) :
    list_checkins db s e = .error (.http 400 "end must be >= start") ∧
    get_fitness_metrics db s e = .error (.http 400 "end must be >= start") ∧
    list_mortgage_events db s e = .ok [] := by
  refine ⟨?_, ?_, ?_⟩
  · simp [list_checkins, hs, he, hlt, Bind.bind, Except.bind, throw, throwThe,
      MonadExceptOf.throw]
  · simp [get_fitness_metrics, hs, he, hlt, Bind.bind, Except.bind, throw, throwThe,
      MonadExceptOf.throw]
  · simp only [list_mortgage_events, hs, he, Bind.bind, Except.bind, pure, Except.pure]
    have hf : db.mortgage_events.filter (fun m => dayInRange ds de m.day) = [] := by
      rw [List.filter_eq_nil_iff]
      intro m _
      simp only [dayInRange, Bool.and_eq_true, decide_eq_true_eq, not_and]
      omega
    rw [hf]
    rfl

/-- Witness for C3 (amended): the concrete reversed range 2026-01-02 to
2026-01-01 is rejected by the check-in and metrics reads and answered with
an empty success by the mortgage read. -/
theorem range_reads_end_before_start_witness :
    parse_date "2026-01-02" = .ok 739618 ∧
    parse_date "2026-01-01" = .ok 739617 ∧
    (739617 : Int) < 739618 ∧
    (list_checkins emptyDB "2026-01-02" "2026-01-01" =
        .error (.http 400 "end must be >= start") ∧
      get_fitness_metrics emptyDB "2026-01-02" "2026-01-01" =
        .error (.http 400 "end must be >= start") ∧
      list_mortgage_events emptyDB "2026-01-02" "2026-01-01" = .ok []) :=
  ⟨by decide, by decide, by decide,
   range_reads_end_before_start emptyDB "2026-01-02" "2026-01-01" 739618 739617
     (by decide) (by decide) (by decide)⟩

/-- C4 counterexample: a reset with the correct confirmation also empties
the trip-history collection, which is not among the five collections the
claim says are exactly the ones emptied: starting from a store with one
history entry, the entry is gone after the reset. -/
theorem admin_reset_also_clears_trip_history :
    dbWithHistory.trip_history ≠ [] ∧
    (admin_reset dbWithHistory "RESET" "t1").2.trip_history = [] :=
  ⟨by decide, by decide⟩

/-- C4 amended: a reset confirmed with the exact value RESET empties six
collections — check-ins, metrics, photos, mortgage events, gifts, and also
trip-history — reporting the per-collection deleted counts, resets the trip
singleton to defaults, and leaves the settings document untouched; any
other confirmation value yields a client error with the whole store
unchanged. -/
theorem admin_reset_spec (db : DB) (c now : String) :
    (c = "RESET" →
      admin_reset db c now =
        (.ok [("checkins", db.checkins.length), ("metrics", db.metrics.length),
              ("photos", db.photos.length),
              ("mortgage_events", db.mortgage_events.length),
              ("gifts", db.gifts.length), ("trip_history", db.trip_history.length)],
         { db with checkins := [], metrics := [], photos := [],
                   mortgage_events := [], gifts := [], trip_history := [],
                   trip := some (defaultTripDoc now) })) ∧
    (c ≠ "RESET" →
      admin_reset db c now = (.error (.http 400 "confirm must be RESET"), db)) := by
  constructor
  · intro h
    simp [admin_reset, h]
  · intro h
    simp [admin_reset, h]

/-- Witness for C4 (amended): a wrong confirmation leaves the sample store
untouched with a client error; the confirmed reset keeps its settings
singleton as it was. -/
theorem admin_reset_spec_witness :
    admin_reset dbWithHistory "WRONG" "t1" =
      (.error (.http 400 "confirm must be RESET"), dbWithHistory) ∧
    (admin_reset dbWithHistory "RESET" "t1").2.settings = dbWithHistory.settings :=
  ⟨(admin_reset_spec dbWithHistory "WRONG" "t1").2 (by decide),
   by rw [(admin_reset_spec dbWithHistory "RESET" "t1").1 rfl]⟩

/-- C8: for every anchor ordinal, the weekly-review bounds are
`week_start = anchor - ((weekday + 1) mod 7)` and
`week_end = week_start + 6`; the start is always a Sunday (weekday 6 in the
Monday-0 indexing) with the anchor inside the week; and for an anchor on a
Wednesday (weekday 2) the start is the preceding Sunday, three days back. -/
theorem week_bounds_spec (anchor : Int) :
    (week_bounds anchor).1 = anchor - ((weekday anchor + 1) % 7) ∧
    (week_bounds anchor).2 = (week_bounds anchor).1 + 6 ∧
    weekday (week_bounds anchor).1 = 6 ∧
    (week_bounds anchor).1 ≤ anchor ∧ anchor ≤ (week_bounds anchor).2 ∧
    (weekday anchor = 2 →
      (week_bounds anchor).1 = anchor - 3 ∧ weekday (anchor - 3) = 6) := by
  have h1 : week_bounds anchor =
      (anchor - ((weekday anchor + 1) % 7),
       anchor - ((weekday anchor + 1) % 7) + 6) := rfl
  simp only [h1, weekday]
  refine ⟨trivial, trivial, ?_, ?_, ?_, ?_⟩ <;> omega

/-- Witness for C8: 2026-01-07 (ordinal 739623) is a Wednesday; its week
starts on the preceding Sunday 2026-01-04 (ordinal 739620). -/
theorem week_bounds_spec_witness :
    weekday (toOrdinal 2026 1 7) = 2 ∧
    (week_bounds (toOrdinal 2026 1 7)).1 = toOrdinal 2026 1 7 - 3 ∧
    weekday (toOrdinal 2026 1 7 - 3) = 6 :=
  ⟨by decide,
   ((week_bounds_spec (toOrdinal 2026 1 7)).2.2.2.2.2 (by decide)).1,
   ((week_bounds_spec (toOrdinal 2026 1 7)).2.2.2.2.2 (by decide)).2⟩

/-- C5: trip-update validation parses each provided date before comparing —
a provided start date that fails to parse is rejected with its parse error;
a provided end date that fails to parse (with the start absent or parsed) is
rejected with its parse error; and when both are present and parse with the
end before the start, the update is rejected with a client error. In every
rejection the store is returned unchanged: no trip state is written and no
history entry appended, since every raise precedes every write. -/
theorem update_trip_validation (db : DB) (p : TripUpdate) (ts fid : String) :
    (∀ err, p.start_date ≠ "" → parse_date p.start_date = .error err →
      update_trip db p ts fid = (.error err, db)) ∧
    (∀ err, p.end_date ≠ "" →
      (p.start_date = "" ∨ ∃ a, parse_date p.start_date = .ok a) →
      parse_date p.end_date = .error err →
      update_trip db p ts fid = (.error err, db)) ∧
    (∀ a b, p.start_date ≠ "" → p.end_date ≠ "" →
      parse_date p.start_date = .ok a → parse_date p.end_date = .ok b → b < a →
      update_trip db p ts fid =
        (.error (.http 400 "end_date must be >= start_date"), db)) := by
  refine ⟨?_, ?_, ?_⟩
  · intro err h1 h2
    simp [update_trip, parse_date_if_present, h1, h2]
  · intro err h1 hsd h2
    by_cases hse : p.start_date = ""
    · simp [update_trip, parse_date_if_present, hse, h1, h2]
    · rcases hsd with hsd | ⟨a, ha⟩
      · exact absurd hsd hse
      · simp [update_trip, parse_date_if_present, hse, h1, h2, ha]
  · intro a b h1 h2 ha hb hlt
    simp [update_trip, parse_date_if_present, h1, h2, ha, hb, hlt]

/-- Witness for C5: the update with start 2026-01-10 and end 2026-01-05 is
rejected and the empty store is returned unchanged. -/
theorem update_trip_validation_witness :
    badOrderTrip.start_date ≠ "" ∧
    badOrderTrip.end_date ≠ "" ∧
    parse_date badOrderTrip.start_date = .ok 739626 ∧
    parse_date badOrderTrip.end_date = .ok 739621 ∧
    (739621 : Int) < 739626 ∧
    update_trip emptyDB badOrderTrip "t1" "f1" =
      (.error (.http 400 "end_date must be >= start_date"), emptyDB) :=
  ⟨by decide, by decide, by decide, by decide, by decide,
   (update_trip_validation emptyDB badOrderTrip "t1" "f1").2.2 739626 739621
     (by decide) (by decide) (by decide) (by decide) (by decide)⟩

/-- C6: every trip update that succeeds on a store whose trip singleton is
present (every reachable store: startup creates it and no operation removes
it, see the preservation lemmas above) appends exactly one entry to the
trip-history collection, and the snapshot stored in that entry is the full
prior trip document — the state immediately before the update, never the
newly written one. -/
theorem update_trip_appends_prior_snapshot (db : DB) (p : TripUpdate)
    (ts fid : String) (pr ret : TripDoc) (db2 : DB)
    (hprev : db.trip = some pr)
    (hok : update_trip db p ts fid = (.ok ret, db2)) :
    db2.trip_history = db.trip_history ++ [⟨fid, "default", ts, pr⟩] := by
  unfold update_trip at hok
  rw [hprev] at hok
  cases h1 : parse_date_if_present p.start_date with
  | error e =>
    rw [h1] at hok
    simp at hok
  | ok osd =>
    cases h2 : parse_date_if_present p.end_date with
    | error e =>
      rw [h1, h2] at hok
      simp at hok
    | ok oed =>
      rw [h1, h2] at hok
      simp only [] at hok
      split at hok
      · simp at hok
      · simp only [Prod.mk.injEq] at hok
        rw [← hok.2]

/-- Witness for C6: a successful update of the sample store appends exactly
the prior document `sampleTripDoc` as the one new history snapshot. -/
theorem update_trip_appends_prior_snapshot_witness :
    dbWithHistory.trip = some sampleTripDoc ∧
    update_trip dbWithHistory {} "t2" "h2" =
      (.ok (defaultTripDoc "t2"), (update_trip dbWithHistory {} "t2" "h2").2) ∧
    (update_trip dbWithHistory {} "t2" "h2").2.trip_history =
      dbWithHistory.trip_history ++ [⟨"h2", "default", "t2", sampleTripDoc⟩] :=
  ⟨rfl, by decide,
   update_trip_appends_prior_snapshot dbWithHistory {} "t2" "h2" sampleTripDoc
     (defaultTripDoc "t2") (update_trip dbWithHistory {} "t2" "h2").2
     rfl (by decide)⟩

/-- Exact result of a check-in upsert when no document exists for the day:
a fresh document is inserted with both timestamps equal to `ts`. -/
theorem upsert_insert_case (db : DB) (p : CheckInUpsertRequest) (ts fid : String)
    (d : Int) (hp : parse_date p.day = .ok d)
    (hfind : findCheckinByDay db d = none) :
    upsert_checkin db p ts fid =
      (.ok ⟨fid, d, p.wakeup_5am, p.workout, p.video_captured, p.notes, ts, ts⟩,
       { db with checkins := db.checkins ++
           [⟨fid, d, p.wakeup_5am, p.workout, p.video_captured, p.notes, ts, ts⟩] }) := by
  simp only [upsert_checkin, hp, hfind]

/-- Exact result of a check-in upsert when a document exists for the day:
the payload fields and `updated_at` are rewritten in place, `created_at` is
untouched. -/
theorem upsert_update_case (db : DB) (p : CheckInUpsertRequest) (ts fid : String)
    (d : Int) (ex : CheckInDoc) (hp : parse_date p.day = .ok d)
    (hfind : findCheckinByDay db d = some ex) :
    upsert_checkin db p ts fid =
      (.ok { ex with
              wakeup_5am := p.wakeup_5am,
              workout := p.workout,
              video_captured := p.video_captured,
              notes := p.notes,
              updated_at := ts },
       { db with checkins := db.checkins.map (fun c =>
           if c.id == ex.id
           then { ex with
                   wakeup_5am := p.wakeup_5am,
                   workout := p.workout,
                   video_captured := p.video_captured,
                   notes := p.notes,
                   updated_at := ts }
           else c) }) := by
  simp only [upsert_checkin, hp, hfind]

/-- C7: for a day string that parses, on a store with no check-in for that
day (and a first id fresh for the store), upserting twice for the same day
leaves exactly one stored check-in record for that day; its payload fields
are those of the second upsert, its `created_at` is the first timestamp
(preserved), and its `updated_at` is the second timestamp — changed by the
second upsert from the first timestamp the intermediate record carried
(shown by the first conjunct). -/
theorem upsert_checkin_twice (db : DB) (p1 p2 : CheckInUpsertRequest)
    (s : String) (d : Int) (ts1 ts2 fid1 fid2 : String)
    (hs : parse_date s = .ok d) (hd1 : p1.day = s) (hd2 : p2.day = s)
    (hnew : ∀ c ∈ db.checkins, c.day ≠ d)
    (hfid : ∀ c ∈ db.checkins, c.id ≠ fid1) :
    (upsert_checkin db p1 ts1 fid1).1 =
      .ok ⟨fid1, d, p1.wakeup_5am, p1.workout, p1.video_captured, p1.notes, ts1, ts1⟩ ∧
    (upsert_checkin (upsert_checkin db p1 ts1 fid1).2 p2 ts2 fid2).1 =
      .ok ⟨fid1, d, p2.wakeup_5am, p2.workout, p2.video_captured, p2.notes, ts1, ts2⟩ ∧
    (upsert_checkin (upsert_checkin db p1 ts1 fid1).2 p2 ts2 fid2).2.checkins.filter
        (fun c => c.day == d) =
      [⟨fid1, d, p2.wakeup_5am, p2.workout, p2.video_captured, p2.notes, ts1, ts2⟩] := by
  have hp1 : parse_date p1.day = .ok d := by rw [hd1]; exact hs
  have hp2 : parse_date p2.day = .ok d := by rw [hd2]; exact hs
  have hfind1 : findCheckinByDay db d = none := by
    unfold findCheckinByDay
    rw [List.find?_eq_none]
    intro c hc
    simp [hnew c hc]
  have e1 := upsert_insert_case db p1 ts1 fid1 d hp1 hfind1
  have hfind2 : findCheckinByDay { db with checkins := db.checkins ++
      [(⟨fid1, d, p1.wakeup_5am, p1.workout, p1.video_captured, p1.notes, ts1, ts1⟩ : CheckInDoc)] } d =
      some ⟨fid1, d, p1.wakeup_5am, p1.workout, p1.video_captured, p1.notes, ts1, ts1⟩ := by
    unfold findCheckinByDay
    rw [List.find?_append]
    unfold findCheckinByDay at hfind1
    rw [hfind1]
    simp [List.find?]
  have e2 := upsert_update_case { db with checkins := db.checkins ++
      [(⟨fid1, d, p1.wakeup_5am, p1.workout, p1.video_captured, p1.notes, ts1, ts1⟩ : CheckInDoc)] }
    p2 ts2 fid2 d
    ⟨fid1, d, p1.wakeup_5am, p1.workout, p1.video_captured, p1.notes, ts1, ts1⟩ hp2 hfind2
  refine ⟨by rw [e1], ?_, ?_⟩
  · rw [e1]
    simp only []
    rw [e2]
  · rw [e1]
    simp only []
    rw [e2]
    dsimp only
    rw [List.map_append, List.filter_append]
    have hmapnil : db.checkins.map (fun c =>
        if c.id == fid1
        then (⟨fid1, d, p2.wakeup_5am, p2.workout, p2.video_captured, p2.notes, ts1, ts2⟩ : CheckInDoc)
        else c) = db.checkins := by
      conv_rhs => rw [← List.map_id db.checkins]
      apply List.map_congr_left
      intro c hc
      simp [hfid c hc]
    have hnil : db.checkins.filter (fun c => c.day == d) = [] := by
      rw [List.filter_eq_nil_iff]
      intro c hc
      simp [hnew c hc]
    rw [hmapnil, hnil]
    simp

/-- Witness for C7: two upserts for 2026-01-10 on the empty store leave one
record with the second payload, `created_at` t1 and `updated_at` t2. -/
theorem upsert_checkin_twice_witness :
    parse_date "2026-01-10" = .ok 739626 ∧
    (upsert_checkin (upsert_checkin emptyDB ⟨"2026-01-10", true, false, false, "a"⟩ "t1" "c1").2
        ⟨"2026-01-10", false, true, true, "b"⟩ "t2" "c2").2.checkins.filter
        (fun c => c.day == (739626 : Int)) =
      [⟨"c1", 739626, false, true, true, "b", "t1", "t2"⟩] :=
  ⟨by decide,
   (upsert_checkin_twice emptyDB ⟨"2026-01-10", true, false, false, "a"⟩
     ⟨"2026-01-10", false, true, true, "b"⟩ "2026-01-10" 739626 "t1" "t2" "c1" "c2"
     (by decide) rfl rfl (by decide) (by decide)).2.2⟩

/-- C9: the deprecated waist endpoint is an alias of the body-fat endpoint —
identical on every input, so on every valid day and in-range value it stores
a record indistinguishable from the direct endpoint (kind `body_fat`, same
day and value); and the metrics range read reports every stored legacy
`waist` record with kind `body_fat` (no response entry carries the legacy
kind, and each in-range waist record surfaces with the same id, day, value
and timestamp under `body_fat`). -/
theorem waist_alias_spec :
    (∀ (db : DB) (day : String) (v : Rat) (ts fid : String),
      add_waist db day v ts fid = add_body_fat db day v ts fid) ∧
    (∀ (db : DB) (day : String) (v : Rat) (ts fid : String) (d : Int),
      parse_date day = .ok d → 3 ≤ v → v ≤ 70 →
      add_waist db day v ts fid =
        (.ok ⟨fid, d, "body_fat", v, ts⟩,
         { db with metrics := db.metrics ++ [⟨fid, d, "body_fat", v, ts⟩] })) ∧
    (∀ (db : DB) (s e : String) (ds de : Int) (out : FitnessMetricsOut),
      parse_date s = .ok ds → parse_date e = .ok de →
      get_fitness_metrics db s e = .ok out →
      (∀ mo ∈ out.metrics, mo.kind ≠ "waist") ∧
      (∀ m ∈ db.metrics, m.kind = "waist" → dayInRange ds de m.day = true →
        ∃ mo ∈ out.metrics, mo.id = m.id ∧ mo.kind = "body_fat" ∧
          mo.day = m.day ∧ mo.value = m.value ∧ mo.created_at = m.created_at)) := by
  refine ⟨fun db day v ts fid => rfl, ?_, ?_⟩
  · intro db day v ts fid d hp h3 h70
    have hcond : ¬(v < 3 ∨ v > 70) := by
      push_neg
      exact ⟨h3, h70⟩
    have hcl : clamp_float v 3 70 "body_fat_pct" = .ok v := by
      unfold clamp_float
      rw [if_neg hcond]
    simp only [add_waist, add_body_fat, hp, hcl]
  · intro db s e ds de out hs he hok
    by_cases hlt : de < ds
    · simp only [get_fitness_metrics, hs, he, Bind.bind, Except.bind, throw, throwThe,
        MonadExceptOf.throw, if_pos hlt] at hok
      cases hok
    · simp only [get_fitness_metrics, hs, he, Bind.bind, Except.bind, pure, Except.pure,
        if_neg hlt, Except.ok.injEq] at hok
      subst hok
      constructor
      · intro mo hmo
        rw [List.mem_map] at hmo
        obtain ⟨m, _, rfl⟩ := hmo
        by_cases hw : m.kind == "waist"
        · simp only [hw, if_true]
          decide
        · simp only [hw, if_false, Bool.false_eq_true]
          simpa using hw
      · intro m hm hkind hr
        refine ⟨⟨m.id, m.day, "body_fat", m.value, m.created_at⟩, ?_, rfl, rfl, rfl, rfl, rfl⟩
        rw [List.mem_map]
        refine ⟨m, ?_, ?_⟩
        · rw [mem_sortAsc]
          exact List.mem_filter.mpr ⟨hm, hr⟩
        · simp [hkind]

/-- Witness for C9: the waist endpoint stores 30 on 2026-01-10 exactly as the
body-fat endpoint would, and the range read over January 2026 reports the
legacy waist record of `waistDB` with kind `body_fat`. -/
theorem waist_alias_spec_witness :
    parse_date "2026-01-10" = .ok 739626 ∧ (3 : Rat) ≤ 30 ∧ (30 : Rat) ≤ 70 ∧
    add_waist emptyDB "2026-01-10" 30 "t1" "m1" =
      (.ok ⟨"m1", 739626, "body_fat", 30, "t1"⟩,
       { emptyDB with metrics := [⟨"m1", 739626, "body_fat", 30, "t1"⟩] }) ∧
    (∀ mo ∈ (⟨[⟨"w1", 739620, "body_fat", 30, "t0"⟩], [], none,
        some 30⟩ : FitnessMetricsOut).metrics, mo.kind ≠ "waist") :=
  ⟨by decide, by decide, by decide,
   waist_alias_spec.2.1 emptyDB "2026-01-10" 30 "t1" "m1" 739626
     (by decide) (by decide) (by decide),
   (waist_alias_spec.2.2 waistDB "2026-01-01" "2026-01-31" 739617 739647
     ⟨[⟨"w1", 739620, "body_fat", 30, "t0"⟩], [], none, some 30⟩
     (by decide) (by decide) (by decide)).1⟩

/-- C10: for each of the four numeric-range-validated create endpoints
(weight in 80-400, body-fat in 3-70, principal payment in 1-1000000,
balance check in 1-10000000), a value strictly outside the range is
rejected with a client error whose message names the field, leaving the
store unchanged, while every in-range value — the boundaries included — is
accepted and stored unchanged, never clamped. -/
theorem clamp_create_spec (db : DB) (s : String) (d : Int) (ts fid note : String)
    (hs : parse_date s = .ok d) :
    (∀ v : Rat, v < 80 ∨ v > 400 →
      add_weight db s v ts fid = (.error (.http 400 "weight_lbs out of range"), db)) ∧
    (∀ v : Rat, 80 ≤ v → v ≤ 400 →
      add_weight db s v ts fid =
        (.ok ⟨fid, d, "weight", v, ts⟩,
         { db with metrics := db.metrics ++ [⟨fid, d, "weight", v, ts⟩] })) ∧
    (∀ v : Rat, v < 3 ∨ v > 70 →
      add_body_fat db s v ts fid = (.error (.http 400 "body_fat_pct out of range"), db)) ∧
    (∀ v : Rat, 3 ≤ v → v ≤ 70 →
      add_body_fat db s v ts fid =
        (.ok ⟨fid, d, "body_fat", v, ts⟩,
         { db with metrics := db.metrics ++ [⟨fid, d, "body_fat", v, ts⟩] })) ∧
    (∀ v : Rat, v < 1 ∨ v > 1000000 →
      add_principal_payment db s v note ts fid =
        (.error (.http 400 "amount out of range"), db)) ∧
    (∀ v : Rat, 1 ≤ v → v ≤ 1000000 →
      add_principal_payment db s v note ts fid =
        (.ok ⟨fid, d, "principal_payment", v, note, ts⟩,
         { db with mortgage_events :=
             db.mortgage_events ++ [⟨fid, d, "principal_payment", v, note, ts⟩] })) ∧
    (∀ v : Rat, v < 1 ∨ v > 10000000 →
      add_balance_check db s v note ts fid =
        (.error (.http 400 "principal_balance out of range"), db)) ∧
    (∀ v : Rat, 1 ≤ v → v ≤ 10000000 →
      add_balance_check db s v note ts fid =
        (.ok ⟨fid, d, "balance_check", v, note, ts⟩,
         { db with mortgage_events :=
             db.mortgage_events ++ [⟨fid, d, "balance_check", v, note, ts⟩] })) := by
  refine ⟨?_, ?_, ?_, ?_, ?_, ?_, ?_, ?_⟩
  · intro v hv
    have hcl : clamp_float v 80 400 "weight_lbs" =
        .error (.http 400 "weight_lbs out of range") := by
      unfold clamp_float
      rw [if_pos hv]
      rfl
    simp only [add_weight, hs, hcl]
  · intro v h1 h2
    have hcl : clamp_float v 80 400 "weight_lbs" = .ok v := by
      unfold clamp_float
      rw [if_neg (by push_neg; exact ⟨h1, h2⟩)]
    simp only [add_weight, hs, hcl]
  · intro v hv
    have hcl : clamp_float v 3 70 "body_fat_pct" =
        .error (.http 400 "body_fat_pct out of range") := by
      unfold clamp_float
      rw [if_pos hv]
      rfl
    simp only [add_body_fat, hs, hcl]
  · intro v h1 h2
    have hcl : clamp_float v 3 70 "body_fat_pct" = .ok v := by
      unfold clamp_float
      rw [if_neg (by push_neg; exact ⟨h1, h2⟩)]
    simp only [add_body_fat, hs, hcl]
  · intro v hv
    have hcl : clamp_float v 1 1000000 "amount" =
        .error (.http 400 "amount out of range") := by
      unfold clamp_float
      rw [if_pos hv]
      rfl
    simp only [add_principal_payment, hs, hcl]
  · intro v h1 h2
    have hcl : clamp_float v 1 1000000 "amount" = .ok v := by
      unfold clamp_float
      rw [if_neg (by push_neg; exact ⟨h1, h2⟩)]
    simp only [add_principal_payment, hs, hcl]
  · intro v hv
    have hcl : clamp_float v 1 10000000 "principal_balance" =
        .error (.http 400 "principal_balance out of range") := by
      unfold clamp_float
      rw [if_pos hv]
      rfl
    simp only [add_balance_check, hs, hcl]
  · intro v h1 h2
    have hcl : clamp_float v 1 10000000 "principal_balance" = .ok v := by
      unfold clamp_float
      rw [if_neg (by push_neg; exact ⟨h1, h2⟩)]
    simp only [add_balance_check, hs, hcl]

/-- Witness for C10: on 2026-01-10 the boundary weights 80 and 400 are
accepted and stored unchanged, 410 is rejected naming `weight_lbs`; the
body-fat boundary 70 is accepted; a principal payment of 0 is rejected
naming `amount`; a balance check of 10000000 is accepted. -/
theorem clamp_create_spec_witness :
    parse_date "2026-01-10" = .ok 739626 ∧
    add_weight emptyDB "2026-01-10" 80 "t" "i" =
      (.ok ⟨"i", 739626, "weight", 80, "t"⟩,
       { emptyDB with metrics := [⟨"i", 739626, "weight", 80, "t"⟩] }) ∧
    add_weight emptyDB "2026-01-10" 400 "t" "i" =
      (.ok ⟨"i", 739626, "weight", 400, "t"⟩,
       { emptyDB with metrics := [⟨"i", 739626, "weight", 400, "t"⟩] }) ∧
    add_weight emptyDB "2026-01-10" 410 "t" "i" =
      (.error (.http 400 "weight_lbs out of range"), emptyDB) ∧
    add_body_fat emptyDB "2026-01-10" 70 "t" "i" =
      (.ok ⟨"i", 739626, "body_fat", 70, "t"⟩,
       { emptyDB with metrics := [⟨"i", 739626, "body_fat", 70, "t"⟩] }) ∧
    add_principal_payment emptyDB "2026-01-10" 0 "n" "t" "i" =
      (.error (.http 400 "amount out of range"), emptyDB) ∧
    add_balance_check emptyDB "2026-01-10" 10000000 "n" "t" "i" =
      (.ok ⟨"i", 739626, "balance_check", 10000000, "n", "t"⟩,
       { emptyDB with mortgage_events :=
           [⟨"i", 739626, "balance_check", 10000000, "n", "t"⟩] }) :=
  ⟨by decide,
   (clamp_create_spec emptyDB "2026-01-10" 739626 "t" "i" "n" (by decide)).2.1 80
     (by norm_num) (by norm_num),
   (clamp_create_spec emptyDB "2026-01-10" 739626 "t" "i" "n" (by decide)).2.1 400
     (by norm_num) (by norm_num),
   (clamp_create_spec emptyDB "2026-01-10" 739626 "t" "i" "n" (by decide)).1 410
     (by norm_num),
   (clamp_create_spec emptyDB "2026-01-10" 739626 "t" "i" "n" (by decide)).2.2.2.1 70
     (by norm_num) (by norm_num),
   (clamp_create_spec emptyDB "2026-01-10" 739626 "t" "i" "n" (by decide)).2.2.2.2.1 0
     (by norm_num),
   (clamp_create_spec emptyDB "2026-01-10" 739626 "t" "i" "n" (by decide)).2.2.2.2.2.2.2
     10000000 (by norm_num) (by norm_num)⟩

end Tracker
